import Mathlib

/-!
Shallow embedding of the download-orchestration core of the
ViewGo-All-Video-Downloader-and-Status-Saver repository, together with proofs
settling the frozen claims about it.

Conventions of the embedding:
* JavaScript numbers are modelled as rationals; a field that may be absent
  is an Option.  JavaScript truthiness on numbers (0 and undefined are falsy)
  is the function optTruthy; on strings (empty and undefined are falsy) it is
  strTruthy.  The shorthands jsNum and jsStr model the idiom a or-else b.
* The yt-dlp extractor, the Node http client and the URL library are external
  oracles; they appear as function parameters.
* Asynchronous callbacks become explicit state-passing functions; the event
  emitter stream of a job becomes an explicit list of emitted events.
-/

/-- JavaScript truthiness for an optional number: undefined and 0 are falsy. -/
def optTruthy (x : Option ℚ) : Bool :=
  match x with
  | some v => decide (v ≠ 0)
  | none => false

/-- JavaScript truthiness for an optional string: undefined and the empty
string are falsy. -/
def strTruthy (x : Option String) : Bool :=
  match x with
  | some s => s != ""
  | none => false

/-- Models the JavaScript expression a or-else d on numbers: the value of a
when a is truthy, otherwise d. -/
def jsNum (x : Option ℚ) (d : ℚ) : ℚ :=
  match x with
  | some v => if v = 0 then d else v
  | none => d

/-- Models the JavaScript expression a or-else d on strings. -/
def jsStr (x : Option String) (d : String) : String :=
  match x with
  | some s => if s = "" then d else s
  | none => d

/-- One raw format dictionary as returned by the extractor subprocess in its
JSON metadata (the fields read by the code under verification). -/
structure Fmt where
  format_id : Option String := none
  ext : Option String := none
  resolution : Option String := none
  format_note : Option String := none
  filesize : Option ℚ := none
  filesize_approx : Option ℚ := none
  tbr : Option ℚ := none
  abr : Option ℚ := none
  abitrate : Option ℚ := none
  vbr : Option ℚ := none
  vbitrate : Option ℚ := none
  vcodec : Option String := none
  acodec : Option String := none
  height : Option ℚ := none
  width : Option ℚ := none
  protocol : Option String := none
  url : Option String := none
deriving DecidableEq

/-- Embeds estimateBitrateByRes, src/services/downloadService.js lines
145-151 (the copy cited by the claims): note the extra 4K tier at 2160. -/
def estimateBitrateByRes (height : ℚ) : ℚ :=
  if height ≥ 2160 then 8000
  else if height ≥ 1080 then 5000
  else if height ≥ 720 then 2500
  else if height ≥ 480 then 1000
  else 500

/-- Embeds calculateFileSize, src/services/downloadService.js lines 115-142
(the copy cited by the claims).  The branch structure follows the source:
reported filesize, then filesize_approx, then bitrate times duration with a
0.8 compression factor, then a 96 kbps audio-only default, then the
resolution table, else null.  The duration argument is the possibly absent
info.duration. -/
def calculateFileSize (format : Fmt) (duration : Option ℚ) : Option ℚ :=
  if optTruthy format.filesize then format.filesize
  else if optTruthy format.filesize_approx then format.filesize_approx
  else
    let base := jsNum format.tbr (jsNum format.abr (jsNum format.abitrate 0))
    let totalBitrate :=
      if format.vcodec ≠ some "none" then base + jsNum format.vbr (jsNum format.vbitrate 0)
      else base
    let d := duration.getD 0
    if totalBitrate ≠ 0 ∧ optTruthy duration then
      some (totalBitrate * 1000 * d / 8 * (4 / 5))
    else if format.vcodec = some "none" ∧ optTruthy duration then
      some ((96 : ℚ) * 1000 * d / 8)
    else
      let height := jsNum format.height 720
      let estimatedBitrate := estimateBitrateByRes height
      if estimatedBitrate ≠ 0 ∧ optTruthy duration then
        some (estimatedBitrate * 1000 * d / 8 * (4 / 5))
      else none

namespace P4

/-- Embeds estimateBitrateByRes, src/unnamed/part_004 lines 198-203: no 4K
tier, top tier is 1080 and above. -/
def estimateBitrateByRes (height : ℚ) : ℚ :=
  if height ≥ 1080 then 5000
  else if height ≥ 720 then 2500
  else if height ≥ 480 then 1000
  else 500

/-- Embeds calculateFileSize, src/unnamed/part_004 lines 171-196: same shape
as the downloadService.js copy but with no compression factor and a 128 kbps
audio-only default. -/
def calculateFileSize (format : Fmt) (duration : Option ℚ) : Option ℚ :=
  if optTruthy format.filesize then format.filesize
  else if optTruthy format.filesize_approx then format.filesize_approx
  else
    let base := jsNum format.tbr (jsNum format.abr (jsNum format.abitrate 0))
    let totalBitrate :=
      if format.vcodec ≠ some "none" then base + jsNum format.vbr (jsNum format.vbitrate 0)
      else base
    let d := duration.getD 0
    if totalBitrate ≠ 0 ∧ optTruthy duration then
      some (totalBitrate * 1000 * d / 8)
    else if format.vcodec = some "none" ∧ optTruthy duration then
      some ((128 : ℚ) * 1000 * d / 8)
    else
      let height := jsNum format.height 720
      let estimatedBitrate := estimateBitrateByRes height
      if estimatedBitrate ≠ 0 ∧ optTruthy duration then
        some (estimatedBitrate * 1000 * d / 8)
      else none

end P4

/-- Size resolution written following the words of claim C3: exact reported
size, else approximate reported size, else total bitrate times duration
converted kbps to bytes as times 1000 over 8, else the resolution-tier table
with top tier 1080 and a 128 kbps audio-only default, and null when duration
is unknown.  Used only to compare the claim against the source embedding. -/
def c3ClaimResolution (format : Fmt) (duration : Option ℚ) : Option ℚ :=
  if optTruthy format.filesize then format.filesize
  else if optTruthy format.filesize_approx then format.filesize_approx
  else
    let totalBitrate :=
      jsNum format.tbr (jsNum format.abr (jsNum format.abitrate 0)) +
        (if format.vcodec ≠ some "none" then jsNum format.vbr (jsNum format.vbitrate 0) else 0)
    if totalBitrate ≠ 0 ∧ optTruthy duration then
      some (totalBitrate * 1000 * duration.getD 0 / 8)
    else if format.vcodec = some "none" ∧ optTruthy duration then
      some ((128 : ℚ) * 1000 * duration.getD 0 / 8)
    else if optTruthy duration then
      some (P4.estimateBitrateByRes (jsNum format.height 720) * 1000 * duration.getD 0 / 8)
    else none

/-- Size resolution following the amended claim C3: same priority order, but
every estimate (bitrate and tier alike) carries the 0.8 compression factor of
the source, the audio-only default is 96 kbps, and the tier table has an
extra tier at 2160 mapping to 8000 kbps. -/
def c3AmendedResolution (format : Fmt) (duration : Option ℚ) : Option ℚ :=
  if optTruthy format.filesize then format.filesize
  else if optTruthy format.filesize_approx then format.filesize_approx
  else
    let totalBitrate :=
      jsNum format.tbr (jsNum format.abr (jsNum format.abitrate 0)) +
        (if format.vcodec ≠ some "none" then jsNum format.vbr (jsNum format.vbitrate 0) else 0)
    if totalBitrate ≠ 0 ∧ optTruthy duration then
      some (totalBitrate * 1000 * duration.getD 0 / 8 * (4 / 5))
    else if format.vcodec = some "none" ∧ optTruthy duration then
      some ((96 : ℚ) * 1000 * duration.getD 0 / 8)
    else if optTruthy duration then
      some (estimateBitrateByRes (jsNum format.height 720) * 1000 * duration.getD 0 / 8 * (4 / 5))
    else none

/-- Input refuting claim C3 as stated: a format reporting only a total
bitrate of 100 kbps, with duration 8 seconds. -/
def c3Fmt : Fmt := { tbr := some 100 }

/-- Input witnessing claim C10: an exact reported filesize equal to 0
alongside a usable bitrate. -/
def c10Fmt : Fmt := { filesize := some 0, tbr := some 100 }

/-- Input witnessing claim C10: an approximate reported filesize equal to 0. -/
def c10FmtB : Fmt := { filesize_approx := some 0, tbr := some 100 }

/-- Input witnessing claim C10: a truthy exact reported filesize. -/
def c10FmtC : Fmt := { filesize := some 5000 }

/-- Models the JavaScript idiom of sorting an array with a descending numeric
comparator and taking element 0: the first element carrying the maximal key
(the platform sort is stable, so ties keep the earlier element). -/
def argmaxBy (key : Fmt → ℚ) (l : List Fmt) : Option Fmt :=
  l.foldl (fun best x =>
    match best with
    | none => some x
    | some b => if key b < key x then some x else some b) none

/-- Same idiom for a two-key descending lexicographic comparator (width, then
height). -/
def argmaxBy2 (key : Fmt → ℚ × ℚ) (l : List Fmt) : Option Fmt :=
  l.foldl (fun best x =>
    match best with
    | none => some x
    | some b =>
      if (key b).1 < (key x).1 ∨ ((key b).1 = (key x).1 ∧ (key b).2 < (key x).2) then some x
      else some b) none

/-- Rendering of a possibly absent number inside a JavaScript template
string; undefined renders as the literal text undefined.  The exact digit
formatting is immaterial to every claim. -/
def numRepr (x : Option ℚ) : String :=
  match x with
  | some v => toString v
  | none => "undefined"

/-- Embeds getEstimatedSizeForAdaptive, src/services/downloadService.js
lines 154-175: pairs the tallest video-only and highest-bitrate audio-only
formats, sums their sizes with a 10 percent adaptive-overhead reduction, and
falls back to the resolution estimate with the 0.8 factor. -/
def getEstimatedSizeForAdaptive (formats : List Fmt) (duration : Option ℚ) : Option ℚ :=
  let bestVideo := argmaxBy (fun f => jsNum f.height 0)
    (formats.filter (fun f => !(f.vcodec == some "none") && f.acodec == some "none"))
  let bestAudio := argmaxBy (fun f => jsNum f.abr 0)
    (formats.filter (fun f => !(f.acodec == some "none") && f.vcodec == some "none"))
  let videoSize := match bestVideo with
    | some b => calculateFileSize b duration
    | none => none
  let audioSize := match bestAudio with
    | some b => calculateFileSize b duration
    | none => none
  if optTruthy videoSize && optTruthy audioSize then
    some ((videoSize.getD 0 + audioSize.getD 0) * (9 / 10))
  else if optTruthy duration then
    some (estimateBitrateByRes (match bestVideo with
      | some b => jsNum b.height 720
      | none => 720) * 1000 * duration.getD 0 / 8 * (4 / 5))
  else none

/-- One element of the list returned by getFormats. -/
structure FormatEntry where
  format_id : Option String
  ext : String
  resolution : String
  format_note : String
  filesize : Option ℚ
deriving DecidableEq

/-- Embeds the body of the map callback of getFormats,
src/services/downloadService.js lines 221-241, for one format f of the
filtered list; allFormats is info.formats, and sc, fb, ig are the platform
tests on the video URL. -/
def getFormatsEntry (allFormats : List Fmt) (duration : Option ℚ)
    (sc fb ig : Bool) (f : Fmt) : FormatEntry :=
  let fs1 := calculateFileSize f duration
  let fs2 := if !optTruthy fs1 && (fb || ig) then
      getEstimatedSizeForAdaptive allFormats duration
    else fs1
  let fs3 := if !optTruthy fs2 && optTruthy duration then
      some ((if sc then (96 : ℚ) else estimateBitrateByRes (jsNum f.height 720)) *
        1000 * duration.getD 0 / 8 * (4 / 5))
    else fs2
  { format_id := f.format_id
    ext := jsStr f.ext (if sc then "mp3" else "mp4")
    resolution := if sc then (if optTruthy f.abr then numRepr f.abr ++ "kbps" else "audio")
      else jsStr f.resolution (numRepr f.height ++ "p")
    format_note := jsStr f.format_note (if sc then "audio" else "video")
    filesize := if optTruthy fs3 then fs3 else none }

/-- Embeds getFormats, src/services/downloadService.js lines 193-246, from
the point where the extractor JSON is available: SoundCloud keeps audio-only
formats, every other platform keeps progressive formats, then each format is
normalized by the map callback above. -/
def getFormatsList (allFormats : List Fmt) (duration : Option ℚ)
    (sc fb ig : Bool) : List FormatEntry :=
  let formats := if sc then
      allFormats.filter (fun f => !(f.acodec == some "none") && f.vcodec == some "none")
    else
      allFormats.filter (fun f => !(f.vcodec == some "none") && !(f.acodec == some "none"))
  formats.map (getFormatsEntry allFormats duration sc fb ig)

namespace P4

/-- Embeds getEstimatedSizeForAdaptive, src/unnamed/part_004 lines 205-226:
as the downloadService.js copy but the paired sum and the fallback carry no
reduction factors. -/
def getEstimatedSizeForAdaptive (formats : List Fmt) (duration : Option ℚ) : Option ℚ :=
  let bestVideo := argmaxBy (fun f => jsNum f.height 0)
    (formats.filter (fun f => !(f.vcodec == some "none") && f.acodec == some "none"))
  let bestAudio := argmaxBy (fun f => jsNum f.abr 0)
    (formats.filter (fun f => !(f.acodec == some "none") && f.vcodec == some "none"))
  let videoSize := match bestVideo with
    | some b => P4.calculateFileSize b duration
    | none => none
  let audioSize := match bestAudio with
    | some b => P4.calculateFileSize b duration
    | none => none
  if optTruthy videoSize && optTruthy audioSize then
    some (videoSize.getD 0 + audioSize.getD 0)
  else if optTruthy duration then
    some (P4.estimateBitrateByRes (match bestVideo with
      | some b => jsNum b.height 720
      | none => 720) * 1000 * duration.getD 0 / 8)
  else none

/-- Embeds the map callback of getFormats, src/unnamed/part_004 lines
282-302: the SoundCloud audio default there is 128 kbps and no compression
factor is applied. -/
def getFormatsEntry (allFormats : List Fmt) (duration : Option ℚ)
    (sc fb ig : Bool) (f : Fmt) : FormatEntry :=
  let fs1 := P4.calculateFileSize f duration
  let fs2 := if !optTruthy fs1 && (fb || ig) then
      P4.getEstimatedSizeForAdaptive allFormats duration
    else fs1
  let fs3 := if !optTruthy fs2 && optTruthy duration then
      some ((if sc then (128 : ℚ) else P4.estimateBitrateByRes (jsNum f.height 720)) *
        1000 * duration.getD 0 / 8)
    else fs2
  { format_id := f.format_id
    ext := jsStr f.ext (if sc then "mp3" else "mp4")
    resolution := if sc then (if optTruthy f.abr then numRepr f.abr ++ "kbps" else "audio")
      else jsStr f.resolution (numRepr f.height ++ "p")
    format_note := jsStr f.format_note (if sc then "audio" else "video")
    filesize := if optTruthy fs3 then fs3 else none }

/-- Embeds getFormats, src/unnamed/part_004 lines 251-302, from the point
where the extractor JSON is available. -/
def getFormatsList (allFormats : List Fmt) (duration : Option ℚ)
    (sc fb ig : Bool) : List FormatEntry :=
  let formats := if sc then
      allFormats.filter (fun f => !(f.acodec == some "none") && f.vcodec == some "none")
    else
      allFormats.filter (fun f => !(f.vcodec == some "none") && !(f.acodec == some "none"))
  formats.map (P4.getFormatsEntry allFormats duration sc fb ig)

end P4

/-- A concrete progressive 720p format with no size information at all. -/
def c2Fmt : Fmt := { vcodec := some "avc1", acodec := some "mp4a", height := some 720 }

/-- Models String.prototype.startsWith over the character list, so that it
computes inside the kernel. -/
def strStartsWith (s p : String) : Bool := p.data.isPrefixOf s.data

/-- Outcome of one HEAD request issued by the redirect resolver: the Node
http client is an external oracle. -/
inductive ReqOutcome
  | timeout
  | netErr
  | response (status : ℕ) (location : Option String)
deriving DecidableEq

/-- The external network and URL library behaviour the redirect resolver
depends on: parseUrl is the URL constructor (none models a throw on invalid
input), urlResolve models building a URL from a Location header against a
base (the normalization of relative Location headers), and request is the
HEAD request. -/
structure NetEnv where
  parseUrl : String → Option String
  urlResolve : String → String → String
  request : String → ReqOutcome

/-- Embeds the prefixing of the input of resolveRedirect, src/unnamed/part_004
line 82: a scheme is prepended when the input does not start with http. -/
def initUrl (u : String) : String :=
  if strStartsWith u "http" then u else "https://" ++ u

/-- Embeds doRequest, the inner loop of resolveRedirect, src/unnamed/part_004
lines 84-104.  The recursion is driven by a fuel argument; the source loop is
intrinsically bounded because the redirects counter only grows, and the fuel
is shown elsewhere to be irrelevant once it covers maxRedirects.  The pair
returned is the resolved URL together with the number of redirects followed
(the hop count is a ghost observer, the source returns only the URL). -/
def doRequest (env : NetEnv) (originalUrl : String) (maxRedirects : ℕ) :
    ℕ → String → ℕ → String × ℕ
  | 0, u, _ => (u, 0)
  | fuel + 1, u, redirects =>
    if maxRedirects ≤ redirects then (u, 0)
    else
      match env.request u with
      | .timeout => (originalUrl, 0)
      | .netErr => (originalUrl, 0)
      | .response status location =>
        match location with
        | some loc =>
          if 300 ≤ status ∧ status < 400 ∧ loc ≠ "" then
            let rest := doRequest env originalUrl maxRedirects fuel
              (env.urlResolve loc u) (redirects + 1)
            (rest.1, rest.2 + 1)
          else (u, 0)
        | none => (u, 0)

/-- Embeds resolveRedirect, src/unnamed/part_004 lines 78-111: the outer
try-catch resolves the original URL when the URL constructor throws. -/
def resolveRedirect (env : NetEnv) (originalUrl : String) (maxRedirects : ℕ) :
    String × ℕ :=
  match env.parseUrl (initUrl originalUrl) with
  | none => (originalUrl, 0)
  | some canonical =>
    doRequest env originalUrl maxRedirects (maxRedirects + 1) canonical 0

/-- resolveRedirect at its default hop budget of 5, src/unnamed/part_004
line 78. -/
def resolveRedirectDefault (env : NetEnv) (originalUrl : String) : String × ℕ :=
  resolveRedirect env originalUrl 5

/-- A network with one successful redirect from a to b followed by a network
error at b. -/
def c6Env : NetEnv :=
  { parseUrl := fun s => some s
    urlResolve := fun loc _ => loc
    request := fun u =>
      if u = "http://a.example/" then .response 301 (some "http://b.example/")
      else .netErr }

/-- A network that times out on every request. -/
def c6EnvB : NetEnv :=
  { parseUrl := fun s => some s
    urlResolve := fun loc _ => loc
    request := fun _ => ReqOutcome.timeout }

/-- Lifecycle states appearing in the source job table (status field).  The
pending state named by the specification is included so that its absence from
the code paths can be stated. -/
inductive Status
  | pending
  | downloading
  | completed
  | error
  | streaming
deriving DecidableEq

/-- One record of the in-memory downloads map,
src/services/downloadService.js lines 376-384. -/
structure Job where
  id : String
  url : String
  format : Option String
  status : Status
  progress : ℚ
  filePath : Option String
  error : Option String
deriving DecidableEq

/-- One event emitted on a per-job progress emitter. -/
inductive Event
  | progress (p : ℚ)
  | completed (filePath : String)
  | error (msg : String)
deriving DecidableEq

/-- Whether an event is terminal (completion or error). -/
def Event.isTerminal : Event → Bool
  | .progress _ => false
  | .completed _ => true
  | .error _ => true

/-- The record inserted into the downloads map by startDownload,
src/services/downloadService.js lines 376-384: the initial status is
downloading, progress 0, no file path, no error. -/
def initialJob (id url : String) (format : Option String) : Job :=
  { id := id, url := url, format := format, status := .downloading,
    progress := 0, filePath := none, error := none }

/-- Models downloads.get on the job table. -/
def lookupJob (ds : List (String × Job)) (id : String) : Option Job :=
  (ds.find? (fun p => p.1 == id)).map (fun p => p.2)

/-- The synchronous prefix of startDownload,
src/services/downloadService.js lines 368-384 and 451: a fresh emitter and a
fresh downloading record are registered, and the id is returned at once; the
subprocess runs in an un-awaited async block modelled separately. -/
def startDownloadInsert (ds : List (String × Job)) (emitters : List String)
    (id url : String) (format : Option String) :
    List (String × Job) × List String × String :=
  ((id, initialJob id url format) :: ds, id :: emitters, id)

/-- Embeds getDownloadStatus, src/services/downloadService.js lines 488-492. -/
def getDownloadStatus (ds : List (String × Job)) (id : String) :
    Except String Job :=
  match lookupJob ds id with
  | none => .error "Download not found"
  | some j => .ok j

/-- The progress assignment performed by the stderr handler,
src/services/downloadService.js line 418. -/
def applyProgress (j : Job) (p : ℚ) : Job := { j with progress := p }

/-- Embeds the stderr data handler of startDownload,
src/services/downloadService.js lines 411-422, for one data chunk.  The
argument m is the result of matching the chunk against the progress regular
expression (an external oracle): none when the pattern is absent, otherwise
the parsed percentage.  The handler state is the job-table entry paired with
the events emitted so far. -/
def handleStderrLine (st : Option Job × List Event) (m : Option ℚ) :
    Option Job × List Event :=
  match m with
  | none => st
  | some p =>
    match st.1 with
    | none => st
    | some j => (some (applyProgress j p), st.2 ++ [Event.progress p])

/-- The stderr handler folded over a whole sequence of parsed chunks. -/
def processStderr (j : Option Job) (ms : List (Option ℚ)) :
    Option Job × List Event :=
  ms.foldl handleStderrLine (j, [])

/-- Embeds the completion segment of the async block of startDownload,
src/services/downloadService.js lines 424-448: exitResult is the awaited
subprocess outcome (error carries the thrown message), files the directory
listing; a file whose name starts with the job id is the artifact.  The
missing-artifact throw at line 439 lands in the catch block like any other
error.  Returns the updated table entry and the emitted events. -/
def finishDownload (id dir : String) (exitResult : Except String Unit)
    (files : List String) (j : Option Job) : Option Job × List Event :=
  match exitResult with
  | .ok _ =>
    match files.find? (fun f => strStartsWith f id) with
    | some f =>
      (j.map (fun jb =>
          { jb with
              status := .completed,
              filePath := some (dir ++ "/" ++ f) }),
        [Event.completed (dir ++ "/" ++ f)])
    | none =>
      (j.map (fun jb =>
          { jb with
              status := .error,
              error := some "Output file not found" }),
        [Event.error "Output file not found"])
  | .error msg =>
    (j.map (fun jb => { jb with status := .error, error := some msg }),
      [Event.error (if msg = "" then "Unknown error" else msg)])

/-- Result of subscribing to a job progress stream. -/
inductive SubscribeOutcome
  | notFound
  | stream (initialEvents : List Event)
deriving DecidableEq

/-- Embeds setupProgressStream, src/services/downloadService.js lines
454-486: a 404 when no emitter exists for the id, otherwise a stream whose
immediately sent events are exactly one progress event carrying the cached
progress of the table entry when present; later events only arrive through
future emitter emissions. -/
def setupProgressStream (emitters : List String) (ds : List (String × Job))
    (id : String) : SubscribeOutcome :=
  if emitters.contains id then
    .stream (match lookupJob ds id with
      | some j => [Event.progress j.progress]
      | none => [])
  else .notFound

/-- The job states reachable for a given job through the source transitions:
the inserted record, progress assignments while downloading, and the
completion segment. -/
inductive Reachable (id url : String) (format : Option String) : Job → Prop
  | init : Reachable id url format (initialJob id url format)
  | progress (j : Job) (p : ℚ) : Reachable id url format j →
      j.status = Status.downloading → Reachable id url format (applyProgress j p)
  | finish (j j' : Job) (e : Except String Unit) (files : List String)
      (dir : String) : Reachable id url format j →
      j.status = Status.downloading →
      (finishDownload id dir e files (some j)).1 = some j' →
      Reachable id url format j'

/-- The terminal job used in the late-subscriber scenario. -/
def c5Job : Job :=
  { id := "j", url := "http://u.example/", format := none,
    status := Status.completed, progress := 100,
    filePath := some "/downloads/j.mp4", error := none }

/-- Models String.prototype.includes via splitting on the pattern. -/
def containsSub (s pat : String) : Bool :=
  decide ((s.splitOn pat).length > 1)

/-- Embeds getBestFormatForSizeCalculation,
src/services/downloadService.js lines 177-191: prefer https progressive
formats, pick the one with maximal width then height. -/
def getBestFormatForSizeCalculation (formats : List Fmt) : Option Fmt :=
  let progressive := formats.filter (fun f =>
    f.protocol == some "https" && !(f.vcodec == some "none") &&
      !(f.acodec == some "none"))
  if progressive.length > 0 then
    argmaxBy2 (fun f => (jsNum f.width 0, jsNum f.height 0)) progressive
  else
    argmaxBy2 (fun f => (jsNum f.width 0, jsNum f.height 0)) formats

/-- The extractor JSON document fields read by getVideoPreview. -/
structure Info where
  id : Option String := none
  title : Option String := none
  thumbnail : Option String := none
  duration : Option ℚ := none
  extractor_key : Option String := none
  uploader : Option String := none
  view_count : Option ℚ := none
  filesize : Option ℚ := none
  filesize_approx : Option ℚ := none
  formats : List Fmt := []
deriving DecidableEq

/-- The preview object returned by getVideoPreview. -/
structure Preview where
  id : String
  title : String
  thumbnail : Option String
  duration : Option ℚ
  platform : Option String
  uploader : String
  view_count : Option ℚ
  fileSize : Option ℚ
deriving DecidableEq

/-- Embeds the successful body of getVideoPreview,
src/services/downloadService.js lines 273-302: the file-size fallback chain
and the sentinel defaults for missing fields (Untitled, Unknown, null). -/
def mkPreview (sc fb ig : Bool) (videoUrl : String) (info : Info) : Preview :=
  let fs1 := if optTruthy info.filesize then info.filesize else info.filesize_approx
  let fs2 := if !optTruthy fs1 then
      match (if sc then
          argmaxBy (fun f => jsNum f.abr 0)
            (info.formats.filter (fun f =>
              !(f.acodec == some "none") && f.vcodec == some "none"))
        else getBestFormatForSizeCalculation info.formats) with
      | some b => calculateFileSize b info.duration
      | none => fs1
    else fs1
  let fs3 := if !optTruthy fs2 && (fb || ig) then
      getEstimatedSizeForAdaptive info.formats info.duration
    else fs2
  let fs4 := if !optTruthy fs3 && optTruthy info.duration then
      some ((if sc then (96 : ℚ) else estimateBitrateByRes 720) * 1000 *
        info.duration.getD 0 / 8 * (4 / 5))
    else fs3
  { id := jsStr info.id videoUrl
    title := jsStr info.title "Untitled"
    thumbnail := if strTruthy info.thumbnail then info.thumbnail else none
    duration := info.duration
    platform := info.extractor_key
    uploader := jsStr info.uploader "Unknown"
    view_count := if optTruthy info.view_count then info.view_count else none
    fileSize := if optTruthy fs4 then fs4 else none }

/-- Embeds one attempt of getVideoPreview,
src/services/downloadService.js lines 260-271: the extractor oracle ex is
indexed by the running invocation count; on a Facebook URL whose failure
message contains the parse marker, a second invocation against the mobile URL
is made inside the same attempt.  Returns the attempt outcome and the new
invocation count. -/
def attemptPreview (fb : Bool) (ex : ℕ → Except String Info) (count : ℕ) :
    Except String Info × ℕ :=
  match ex count with
  | .ok info => (.ok info, count + 1)
  | .error msg =>
    if fb && containsSub msg "Cannot parse data" then (ex (count + 1), count + 2)
    else (.error msg, count + 1)

/-- Embeds the retry loop of getVideoPreview,
src/services/downloadService.js lines 248-312: maxRetries is 3, the loop
runs while retries is at most 3, increments retries on failure, throws the
prefixed last message when retries exceeds 3, and otherwise sleeps
1000 times retries milliseconds before the next attempt.  The fuel argument
is 4 minus retries, so the fuel-zero branch is dead code.  Returns the
result, the total number of extractor invocations, and the list of backoff
sleeps performed. -/
def previewLoop (sc fb ig : Bool) (videoUrl : String)
    (ex : ℕ → Except String Info) :
    ℕ → ℕ → ℕ → Except String Preview × ℕ × List ℕ
  | 0, count, _ => (.error "", count, [])
  | fuel + 1, count, retries =>
    match attemptPreview fb ex count with
    | (.ok info, c2) => (.ok (mkPreview sc fb ig videoUrl info), c2, [])
    | (.error msg, c2) =>
      if 3 < retries + 1 then
        (.error ("Failed to get video preview: " ++ msg), c2, [])
      else
        let rest := previewLoop sc fb ig videoUrl ex fuel c2 (retries + 1)
        (rest.1, rest.2.1, 1000 * (retries + 1) :: rest.2.2)

/-- getVideoPreview as invoked: counters start at zero, fuel covers the four
possible attempts. -/
def getVideoPreview (sc fb ig : Bool) (videoUrl : String)
    (ex : ℕ → Except String Info) : Except String Preview × ℕ × List ℕ :=
  previewLoop sc fb ig videoUrl ex 4 0 0

/-- The empty extractor document: every optional field missing. -/
def c9Info : Info := {}

/-- A network whose redirects form a two-cycle between a and b. -/
def c7Env : NetEnv :=
  { parseUrl := fun s => some s
    urlResolve := fun loc _ => loc
    request := fun u =>
      if u = "http://a.example/" then .response 301 (some "http://b.example/")
      else .response 301 (some "http://a.example/") }

theorem estimateBitrateByRes_pos (h : ℚ) : 0 < estimateBitrateByRes h := by
  unfold estimateBitrateByRes
  split <;> try norm_num
  split <;> try norm_num
  split <;> try norm_num
  split <;> norm_num

theorem p4_estimateBitrateByRes_pos (h : ℚ) : 0 < P4.estimateBitrateByRes h := by
  unfold P4.estimateBitrateByRes
  split <;> try norm_num
  split <;> try norm_num
  split <;> norm_num

theorem optTruthy_eq_true {x : Option ℚ} :
    optTruthy x = true ↔ ∃ v, x = some v ∧ v ≠ 0 := by
  cases x <;> simp [optTruthy]

theorem optTruthy_some (v : ℚ) : optTruthy (some v) = decide (v ≠ 0) := rfl

/-- Claim C3 counterexample: on a format with tbr 100 and duration 8 the
source returns 100 times 1000 times 8 over 8 times 0.8 = 80000 bytes, while
the claimed resolution (kbps to bytes as times 1000 over 8, no compression
factor) gives 100000 bytes. -/
theorem c3_counterexample :
    calculateFileSize c3Fmt (some 8) = some 80000 ∧
    c3ClaimResolution c3Fmt (some 8) = some 100000 ∧
    calculateFileSize c3Fmt (some 8) ≠ c3ClaimResolution c3Fmt (some 8) := by
  have h1 : calculateFileSize c3Fmt (some 8) = some 80000 := by
    norm_num [calculateFileSize, c3Fmt, jsNum, optTruthy, estimateBitrateByRes]
  have h2 : c3ClaimResolution c3Fmt (some 8) = some 100000 := by
    norm_num [c3ClaimResolution, c3Fmt, jsNum, optTruthy, P4.estimateBitrateByRes]
  refine ⟨h1, h2, ?_⟩
  rw [h1, h2]
  simp

/-- Claim C3 (amended): calculateFileSize resolves size in priority order
exact reported size, approximate reported size, total bitrate (tbr, else
audio bitrate, plus video bitrate when a video codec is present) times
duration times 1000 over 8 times 0.8, the 96 kbps audio-only default, then
the resolution-tier table (2160 to 8000, 1080 to 5000, 720 to 2500, 480 to
1000, else 500 kbps, again with the 0.8 factor); it returns null exactly when
no reported size is truthy and the duration is unknown or zero. -/
theorem c3_theorem (f : Fmt) (d : Option ℚ) :
    calculateFileSize f d = c3AmendedResolution f d ∧
    (calculateFileSize f d = none ↔
      optTruthy f.filesize = false ∧ optTruthy f.filesize_approx = false ∧
        optTruthy d = false) := by
  have hne : estimateBitrateByRes (jsNum f.height 720) ≠ 0 :=
    ne_of_gt (estimateBitrateByRes_pos _)
  constructor
  · unfold calculateFileSize c3AmendedResolution
    by_cases hv : f.vcodec = some "none" <;> simp [hv, hne]
  · unfold calculateFileSize
    by_cases h1 : optTruthy f.filesize
    · obtain ⟨v, hx, hv0⟩ := optTruthy_eq_true.mp h1
      simp [hx, optTruthy_some, hv0]
    · by_cases h2 : optTruthy f.filesize_approx
      · obtain ⟨v, hx, hv0⟩ := optTruthy_eq_true.mp h2
        simp [h1, hx, optTruthy_some, hv0]
      · by_cases hd : optTruthy d
        · simp only [h1, h2, hd]
          simp [h1, h2, hd]
          split_ifs <;> simp_all
        · simp [h1, h2, hd]

/-- Claim C10: a reported exact filesize of 0 (or approximate filesize of 0)
is not returned; the function behaves as if the field were absent and falls
through to the estimation path, because presence is tested by truthiness.
Precedence of reported sizes holds exactly for non-zero values.  Proved for
both cited copies of calculateFileSize. -/
theorem c10_theorem (f : Fmt) (d : Option ℚ) :
    (f.filesize = some 0 →
      calculateFileSize f d = calculateFileSize { f with filesize := none } d ∧
      P4.calculateFileSize f d = P4.calculateFileSize { f with filesize := none } d) ∧
    (f.filesize_approx = some 0 →
      calculateFileSize f d = calculateFileSize { f with filesize_approx := none } d ∧
      P4.calculateFileSize f d = P4.calculateFileSize { f with filesize_approx := none } d) ∧
    (∀ v : ℚ, f.filesize = some v → v ≠ 0 →
      calculateFileSize f d = some v ∧ P4.calculateFileSize f d = some v) := by
  refine ⟨fun h => ?_, fun h => ?_, fun v hv hv0 => ?_⟩
  · constructor <;> simp [calculateFileSize, P4.calculateFileSize, h, optTruthy]
  · constructor <;> simp [calculateFileSize, P4.calculateFileSize, h, optTruthy]
  · constructor <;> simp [calculateFileSize, P4.calculateFileSize, hv, optTruthy, hv0]

/-- Claim C10 witness: concrete evaluations of the theorem at the inputs
above. -/
theorem c10_witness :
    (calculateFileSize c10Fmt (some 8) = calculateFileSize { c10Fmt with filesize := none } (some 8) ∧
      P4.calculateFileSize c10Fmt (some 8) = P4.calculateFileSize { c10Fmt with filesize := none } (some 8)) ∧
    (calculateFileSize c10FmtB (some 8) = calculateFileSize { c10FmtB with filesize_approx := none } (some 8) ∧
      P4.calculateFileSize c10FmtB (some 8) = P4.calculateFileSize { c10FmtB with filesize_approx := none } (some 8)) ∧
    (calculateFileSize c10FmtC (some 8) = some 5000 ∧
      P4.calculateFileSize c10FmtC (some 8) = some 5000) :=
  ⟨(c10_theorem c10Fmt (some 8)).1 rfl,
   (c10_theorem c10FmtB (some 8)).2.1 rfl,
   (c10_theorem c10FmtC (some 8)).2.2 5000 rfl (by norm_num)⟩

theorem sizeChainNeNone (fs2 : Option ℚ) (d e : ℚ) (hd : d ≠ 0) (he : e ≠ 0) :
    (if optTruthy (if !optTruthy fs2 && optTruthy (some d) then some e else fs2)
      then (if !optTruthy fs2 && optTruthy (some d) then some e else fs2)
      else none) ≠ none := by
  by_cases h2 : optTruthy fs2
  · obtain ⟨v, hx, hv0⟩ := optTruthy_eq_true.mp h2
    simp [hx, optTruthy_some, hv0]
  · have hsd : optTruthy (some d) = true := by simp [optTruthy_some, hd]
    have h2f : optTruthy fs2 = false := by simpa using h2
    simp [h2f, hsd, optTruthy_some, he]

theorem getFormatsEntry_filesize_ne_none (allFormats : List Fmt) (d : ℚ)
    (sc fb ig : Bool) (f : Fmt) (hd : d ≠ 0) :
    (getFormatsEntry allFormats (some d) sc fb ig f).filesize ≠ none := by
  have hbr : (if sc then (96 : ℚ) else estimateBitrateByRes (jsNum f.height 720)) ≠ 0 := by
    by_cases hsc : sc
    · simp [hsc]
    · simp [hsc]
      exact ne_of_gt (estimateBitrateByRes_pos _)
  have he : (if sc then (96 : ℚ) else estimateBitrateByRes (jsNum f.height 720)) *
      1000 * d / 8 * (4 / 5) ≠ 0 :=
    mul_ne_zero (div_ne_zero (mul_ne_zero (mul_ne_zero hbr (by norm_num)) hd)
      (by norm_num)) (by norm_num)
  exact sizeChainNeNone _ d _ hd he

theorem p4_getFormatsEntry_filesize_ne_none (allFormats : List Fmt) (d : ℚ)
    (sc fb ig : Bool) (f : Fmt) (hd : d ≠ 0) :
    (P4.getFormatsEntry allFormats (some d) sc fb ig f).filesize ≠ none := by
  have hbr : (if sc then (128 : ℚ) else P4.estimateBitrateByRes (jsNum f.height 720)) ≠ 0 := by
    by_cases hsc : sc
    · simp [hsc]
    · simp [hsc]
      exact ne_of_gt (p4_estimateBitrateByRes_pos _)
  have he : (if sc then (128 : ℚ) else P4.estimateBitrateByRes (jsNum f.height 720)) *
      1000 * d / 8 ≠ 0 :=
    div_ne_zero (mul_ne_zero (mul_ne_zero hbr (by norm_num)) hd) (by norm_num)
  exact sizeChainNeNone _ d _ hd he

/-- Claim C2: whenever the duration is known and non-zero, every element of
the normalized format list carries a non-null filesize: some estimate is
always produced.  Proved for both cited copies of getFormats. -/
theorem c2_theorem (allFormats : List Fmt) (sc fb ig : Bool) (d : ℚ)
    (e : FormatEntry) (hd : d ≠ 0) :
    (e ∈ getFormatsList allFormats (some d) sc fb ig → e.filesize ≠ none) ∧
    (e ∈ P4.getFormatsList allFormats (some d) sc fb ig → e.filesize ≠ none) := by
  constructor
  · intro he
    unfold getFormatsList at he
    simp only [List.mem_map] at he
    obtain ⟨f, _, rfl⟩ := he
    exact getFormatsEntry_filesize_ne_none allFormats d sc fb ig f hd
  · intro he
    unfold P4.getFormatsList at he
    simp only [List.mem_map] at he
    obtain ⟨f, _, rfl⟩ := he
    exact p4_getFormatsEntry_filesize_ne_none allFormats d sc fb ig f hd

/-- Claim C2 witness: at the concrete format above with duration 10 the
normalized entries of both copies carry a non-null filesize. -/
theorem c2_witness :
    (getFormatsEntry [c2Fmt] (some 10) false false false c2Fmt).filesize ≠ none ∧
    (P4.getFormatsEntry [c2Fmt] (some 10) false false false c2Fmt).filesize ≠ none := by
  have hmem : getFormatsEntry [c2Fmt] (some 10) false false false c2Fmt ∈
      getFormatsList [c2Fmt] (some 10) false false false := by
    simp [getFormatsList, c2Fmt]
  have hmem4 : P4.getFormatsEntry [c2Fmt] (some 10) false false false c2Fmt ∈
      P4.getFormatsList [c2Fmt] (some 10) false false false := by
    simp [P4.getFormatsList, c2Fmt]
  exact ⟨(c2_theorem [c2Fmt] false false false 10 _ (by norm_num)).1 hmem,
    (c2_theorem [c2Fmt] false false false 10 _ (by norm_num)).2 hmem4⟩

theorem doRequest_hops_le (env : NetEnv) (o : String) (m : ℕ) :
    ∀ fuel u r, (doRequest env o m fuel u r).2 ≤ m - r := by
  intro fuel
  induction fuel with
  | zero => intro u r; simp [doRequest]
  | succ k ih =>
    intro u r
    by_cases hr : m ≤ r
    · simp [doRequest, hr]
    · simp only [doRequest, if_neg hr]
      cases hreq : env.request u with
      | timeout => simp
      | netErr => simp
      | response status location =>
        cases location with
        | none => simp
        | some loc =>
          by_cases hcond : 300 ≤ status ∧ status < 400 ∧ loc ≠ ""
          · simp only [if_pos hcond]
            have hrec := ih (env.urlResolve loc u) (r + 1)
            show (doRequest env o m k (env.urlResolve loc u) (r + 1)).2 + 1 ≤ m - r
            omega
          · simp [hcond]

theorem doRequest_fuel_irrelevant (env : NetEnv) (o : String) (m : ℕ) :
    ∀ fuel fuel' u r, m ≤ r + fuel → m ≤ r + fuel' →
      doRequest env o m fuel u r = doRequest env o m fuel' u r := by
  intro fuel
  induction fuel with
  | zero =>
    intro fuel' u r h h'
    have hr : m ≤ r := by omega
    cases fuel' <;> simp [doRequest, hr]
  | succ k ih =>
    intro fuel' u r h h'
    by_cases hr : m ≤ r
    · cases fuel' <;> simp [doRequest, hr]
    · cases fuel' with
      | zero => omega
      | succ k' =>
        simp only [doRequest, if_neg hr]
        cases hreq : env.request u with
        | timeout => rfl
        | netErr => rfl
        | response status location =>
          cases location with
          | none => rfl
          | some loc =>
            by_cases hcond : 300 ≤ status ∧ status < 400 ∧ loc ≠ ""
            · simp only [if_pos hcond]
              rw [ih k' (env.urlResolve loc u) (r + 1) (by omega) (by omega)]
            · simp [hcond]

/-- Claim C7: for every network behaviour, including cyclic redirect chains,
resolveRedirect follows at most maxRedirects redirects (5 at the default),
and the result does not depend on the recursion fuel once the fuel covers the
hop budget, which is the shallow form of termination of the source loop. -/
theorem c7_theorem (env : NetEnv) (u : String) (m : ℕ) :
    (resolveRedirect env u m).2 ≤ m ∧
    (resolveRedirectDefault env u).2 ≤ 5 ∧
    (∀ fuel fuel' cur r, m ≤ r + fuel → m ≤ r + fuel' →
      doRequest env u m fuel cur r = doRequest env u m fuel' cur r) := by
  refine ⟨?_, ?_, doRequest_fuel_irrelevant env u m⟩
  · unfold resolveRedirect
    cases env.parseUrl (initUrl u) with
    | none => simp
    | some c => simpa using doRequest_hops_le env u m (m + 1) c 0
  · unfold resolveRedirectDefault resolveRedirect
    cases env.parseUrl (initUrl u) with
    | none => simp
    | some c => simpa using doRequest_hops_le env u 5 (5 + 1) c 0

/-- Claim C6 counterexample: with one redirect successfully followed from a
to b and a network error at b, the source returns the original input a, not
the best URL obtained so far, which is b. -/
theorem c6_counterexample :
    resolveRedirect c6Env "http://a.example/" 5 = ("http://a.example/", 1) ∧
    c6Env.request "http://a.example/" =
      ReqOutcome.response 301 (some "http://b.example/") ∧
    c6Env.request "http://b.example/" = ReqOutcome.netErr ∧
    ("http://a.example/" : String) ≠ "http://b.example/" := by
  refine ⟨?_, by decide, by decide, by decide⟩
  decide

/-- Claim C6 (amended): resolveRedirect never throws; a URL-constructor
failure returns the input; exhausting the hop budget returns the current URL;
the Location header is resolved against the current URL before following; but
a timeout or network error anywhere along the chain returns the original
input URL unchanged, discarding redirects already followed, rather than the
best URL obtained so far. -/
theorem c6_theorem (env : NetEnv) (u0 : String) (m : ℕ) :
    (env.parseUrl (initUrl u0) = none → resolveRedirect env u0 m = (u0, 0)) ∧
    (∀ fuel cur r, m ≤ r → doRequest env u0 m fuel cur r = (cur, 0)) ∧
    (∀ fuel cur r, r < m → env.request cur = ReqOutcome.timeout →
      doRequest env u0 m (fuel + 1) cur r = (u0, 0)) ∧
    (∀ fuel cur r, r < m → env.request cur = ReqOutcome.netErr →
      doRequest env u0 m (fuel + 1) cur r = (u0, 0)) ∧
    (∀ fuel cur r s loc, r < m → env.request cur = ReqOutcome.response s (some loc) →
      300 ≤ s → s < 400 → loc ≠ "" →
      doRequest env u0 m (fuel + 1) cur r =
        ((doRequest env u0 m fuel (env.urlResolve loc cur) (r + 1)).1,
          (doRequest env u0 m fuel (env.urlResolve loc cur) (r + 1)).2 + 1)) := by
  refine ⟨?_, ?_, ?_, ?_, ?_⟩
  · intro h
    simp [resolveRedirect, h]
  · intro fuel cur r h
    cases fuel <;> simp [doRequest, h]
  · intro fuel cur r h hreq
    simp [doRequest, Nat.not_le.mpr h, hreq]
  · intro fuel cur r h hreq
    simp [doRequest, Nat.not_le.mpr h, hreq]
  · intro fuel cur r s loc h hreq h3 h4 h5
    simp [doRequest, Nat.not_le.mpr h, hreq, h3, h4, h5]

/-- Claim C6 witness: concrete instances of the amended theorem, a timeout
returning the input and a hop-exhausted call returning the current URL. -/
theorem c6_witness :
    doRequest c6EnvB "http://a.example/" 5 6 "http://a.example/" 0 =
      ("http://a.example/", 0) ∧
    doRequest c6EnvB "http://a.example/" 5 3 "http://c.example/" 7 =
      ("http://c.example/", 0) :=
  ⟨(c6_theorem c6EnvB "http://a.example/" 5).2.2.1 5 "http://a.example/" 0
      (by norm_num) rfl,
    (c6_theorem c6EnvB "http://a.example/" 5).2.1 3 "http://c.example/" 7
      (by norm_num)⟩

theorem reachable_invariant {id url : String} {format : Option String}
    {j : Job} (h : Reachable id url format j) :
    (j.status = Status.downloading ∨ j.status = Status.completed ∨
      j.status = Status.error) ∧
    (j.filePath ≠ none ↔ j.status = Status.completed) := by
  induction h with
  | init => simp [initialJob]
  | progress j p hr hs ih => simpa [applyProgress] using ih
  | finish j j' e files dir hr hs hfin ih =>
    have hfp : j.filePath = none := by
      rcases ih with ⟨_, hiff⟩
      by_contra hne
      have hc : j.status = Status.completed := hiff.mp hne
      rw [hs] at hc
      exact absurd hc (by decide)
    cases e with
    | ok u =>
      cases hfind : files.find? (fun f => strStartsWith f id) with
      | some f =>
        simp only [finishDownload, hfind, Option.map_some', Option.some.injEq] at hfin
        subst hfin
        simp
      | none =>
        simp only [finishDownload, hfind, Option.map_some', Option.some.injEq] at hfin
        subst hfin
        simp [hfp]
    | error msg =>
      simp only [finishDownload, Option.map_some', Option.some.injEq] at hfin
      subst hfin
      simp [hfp]

/-- Claim C1 (amended): startDownload synchronously inserts a record whose
lifecycle state is downloading (the source has no pending state) and returns
the job id without waiting for the subprocess; polling getDownloadStatus
right after insertion observes that record, and along every reachable
execution the state stays in downloading, completed or error, with filePath
non-null exactly in the completed state. -/
theorem c1_theorem (ds : List (String × Job)) (em : List String)
    (id url : String) (format : Option String) :
    (startDownloadInsert ds em id url format).2.2 = id ∧
    getDownloadStatus (startDownloadInsert ds em id url format).1 id =
      .ok (initialJob id url format) ∧
    (initialJob id url format).status = Status.downloading ∧
    (∀ j : Job, Reachable id url format j →
      (j.status = Status.downloading ∨ j.status = Status.completed ∨
        j.status = Status.error) ∧
      (j.filePath ≠ none ↔ j.status = Status.completed)) := by
  refine ⟨rfl, ?_, rfl, fun j h => reachable_invariant h⟩
  simp [getDownloadStatus, startDownloadInsert, lookupJob]

/-- Claim C1 counterexample: the record inserted by startDownload has status
downloading, not pending, so the observed state sequence never starts at
pending. -/
theorem c1_counterexample :
    getDownloadStatus
        (startDownloadInsert [] [] "job1" "http://u.example/" none).1 "job1" =
      Except.ok (initialJob "job1" "http://u.example/" none) ∧
    (initialJob "job1" "http://u.example/" none).status = Status.downloading ∧
    Status.downloading ≠ Status.pending := by
  refine ⟨?_, rfl, by decide⟩
  simp [getDownloadStatus, startDownloadInsert, lookupJob]

/-- Claim C1 witness: the invariant evaluated at the freshly inserted
record. -/
theorem c1_witness :
    ((initialJob "job1" "http://u.example/" none).status = Status.downloading ∨
      (initialJob "job1" "http://u.example/" none).status = Status.completed ∨
      (initialJob "job1" "http://u.example/" none).status = Status.error) ∧
    ((initialJob "job1" "http://u.example/" none).filePath ≠ none ↔
      (initialJob "job1" "http://u.example/" none).status = Status.completed) :=
  (c1_theorem [] [] "job1" "http://u.example/" none).2.2.2
    (initialJob "job1" "http://u.example/" none) Reachable.init

theorem processStderr_go (ms : List (Option ℚ)) :
    ∀ (j : Job) (acc : List Event),
    ms.foldl handleStderrLine (some j, acc) =
      (some { j with progress := ms.reduceOption.getLastD j.progress },
        acc ++ ms.reduceOption.map Event.progress) := by
  induction ms with
  | nil => intro j acc; simp
  | cons m rest ih =>
    intro j acc
    cases m with
    | none =>
      simp only [List.foldl_cons, handleStderrLine, List.reduceOption_cons_of_none]
      exact ih j acc
    | some p =>
      simp only [List.foldl_cons, handleStderrLine, List.reduceOption_cons_of_some,
        applyProgress]
      rw [ih { j with progress := p } (acc ++ [Event.progress p])]
      rw [List.getLastD_cons]
      simp

/-- Claim C4 (amended): the stderr handler applies and emits every parsed
progress value unconditionally, in input order; the stored progress ends at
the last parsed value, so a regressed value is applied and emitted, not
ignored. -/
theorem c4_theorem (j : Job) (ms : List (Option ℚ)) :
    processStderr (some j) ms =
      (some { j with progress := ms.reduceOption.getLastD j.progress },
        ms.reduceOption.map Event.progress) := by
  unfold processStderr
  simpa using processStderr_go ms j []

/-- Claim C4 counterexample: after parsing 50 percent and then a regressed 30
percent, the job progress is 30 and both values were emitted, so the lower
value was neither dropped nor left unapplied. -/
theorem c4_counterexample :
    processStderr (some (initialJob "job1" "http://u.example/" none))
        [some 50, some 30] =
      (some (applyProgress (initialJob "job1" "http://u.example/" none) 30),
        [Event.progress 50, Event.progress 30]) ∧
    (30 : ℚ) < 50 := by
  exact ⟨rfl, by norm_num⟩

/-- Claim C5 counterexample: subscribing to the already-completed job above
yields a stream whose immediately delivered events are exactly one progress
event, none of which is terminal, so the subscriber does not immediately
receive the terminal event. -/
theorem c5_counterexample :
    c5Job.status = Status.completed ∧
    setupProgressStream ["j"] [("j", c5Job)] "j" =
      SubscribeOutcome.stream [Event.progress 100] ∧
    ∀ e ∈ [Event.progress (100 : ℚ)], e.isTerminal = false := by
  refine ⟨rfl, ?_, by decide⟩
  simp [setupProgressStream, lookupJob, c5Job]

/-- Claim C5 (amended): subscribing with no registered emitter for the id
(a job that never existed) fails with 404; subscribing to any job with an
emitter, terminal or not, immediately delivers exactly one progress event
with the cached progress, never the terminal event, and the stream stays
subscribed. -/
theorem c5_theorem (em : List String) (ds : List (String × Job)) (id : String)
    (j : Job) :
    (em.contains id = false →
      setupProgressStream em ds id = SubscribeOutcome.notFound) ∧
    (em.contains id = true → lookupJob ds id = some j →
      setupProgressStream em ds id =
        SubscribeOutcome.stream [Event.progress j.progress] ∧
      ∀ e ∈ [Event.progress j.progress], e.isTerminal = false) := by
  constructor
  · intro h
    have h' : id ∉ em := by simpa using h
    simp [setupProgressStream, h']
  · intro h hl
    have h' : id ∈ em := by simpa using h
    refine ⟨by simp [setupProgressStream, h', hl], ?_⟩
    intro e he
    simp only [List.mem_singleton] at he
    subst he
    rfl

/-- Claim C5 witness: the 404 outcome on an unknown id and the
progress-only replay on the completed job. -/
theorem c5_witness :
    setupProgressStream ["j2"] [] "missing" = SubscribeOutcome.notFound ∧
    setupProgressStream ["j"] [("j", c5Job)] "j" =
      SubscribeOutcome.stream [Event.progress c5Job.progress] :=
  ⟨( c5_theorem ["j2"] [] "missing" c5Job).1 (by decide),
    (( c5_theorem ["j"] [("j", c5Job)] "j" c5Job).2 (by decide) (by decide)).1⟩

/-- Claim C8: when the subprocess exits cleanly but no file in the download
directory starts with the job id, the job is marked error with the
output-missing message, exactly that error event is emitted, and the job is
never reported completed. -/
theorem c8_theorem (id dir : String) (files : List String) (j : Job)
    (hnone : ∀ f ∈ files, strStartsWith f id = false) :
    (finishDownload id dir (Except.ok ()) files (some j)).1 =
      some { j with status := Status.error,
                    error := some "Output file not found" } ∧
    (finishDownload id dir (Except.ok ()) files (some j)).2 =
      [Event.error "Output file not found"] ∧
    ∀ j', (finishDownload id dir (Except.ok ()) files (some j)).1 = some j' →
      j'.status ≠ Status.completed := by
  have hfind : files.find? (fun f => strStartsWith f id) = none := by
    rw [List.find?_eq_none]
    intro x hx
    simp [hnone x hx]
  refine ⟨by simp [finishDownload, hfind], by simp [finishDownload, hfind], ?_⟩
  intro j' h
  simp only [finishDownload, hfind, Option.map_some', Option.some.injEq] at h
  subst h
  simp

/-- Claim C8 witness: a concrete zero-exit run whose directory listing has no
file named after the job id. -/
theorem c8_witness :
    (finishDownload "abc" "/downloads" (Except.ok ()) ["zzz.mp4"]
        (some (initialJob "abc" "http://u.example/" none))).1 =
      some { initialJob "abc" "http://u.example/" none with
             status := Status.error, error := some "Output file not found" } ∧
    (finishDownload "abc" "/downloads" (Except.ok ()) ["zzz.mp4"]
        (some (initialJob "abc" "http://u.example/" none))).2 =
      [Event.error "Output file not found"] ∧
    ∀ j', (finishDownload "abc" "/downloads" (Except.ok ()) ["zzz.mp4"]
        (some (initialJob "abc" "http://u.example/" none))).1 = some j' →
      j'.status ≠ Status.completed :=
  c8_theorem "abc" "/downloads" ["zzz.mp4"]
    (initialJob "abc" "http://u.example/" none) (by decide)

theorem attemptPreview_count_le (fb : Bool) (ex : ℕ → Except String Info)
    (count : ℕ) : (attemptPreview fb ex count).2 ≤ count + 2 := by
  rcases h : ex count with msg | info
  · simp only [attemptPreview, h]
    split
    · exact Nat.le_refl _
    · exact Nat.le_succ _
  · simp only [attemptPreview, h]
    omega

theorem attemptPreview_count_of_fb_false (ex : ℕ → Except String Info)
    (count : ℕ) : (attemptPreview false ex count).2 = count + 1 := by
  unfold attemptPreview
  cases ex count with
  | ok info => simp
  | error msg => simp

theorem previewLoop_count_le (sc fb ig : Bool) (vu : String)
    (ex : ℕ → Except String Info) :
    ∀ fuel count retries,
      (previewLoop sc fb ig vu ex fuel count retries).2.1 ≤ count + 2 * fuel := by
  intro fuel
  induction fuel with
  | zero => intro c r; simp [previewLoop]
  | succ k ih =>
    intro c r
    have ha := attemptPreview_count_le fb ex c
    rcases hA : attemptPreview fb ex c with ⟨res, c2⟩
    rw [hA] at ha
    cases res with
    | ok info =>
      simp only [previewLoop, hA]
      omega
    | error msg =>
      simp only [previewLoop, hA]
      split
      · simp only []
        omega
      · have hr := ih c2 (r + 1)
        simp only []
        omega

theorem previewLoop_count_of_fb_false (sc ig : Bool) (vu : String)
    (ex : ℕ → Except String Info) :
    ∀ fuel count retries,
      (previewLoop sc false ig vu ex fuel count retries).2.1 ≤ count + fuel := by
  intro fuel
  induction fuel with
  | zero => intro c r; simp [previewLoop]
  | succ k ih =>
    intro c r
    have ha := attemptPreview_count_of_fb_false ex c
    rcases hA : attemptPreview false ex c with ⟨res, c2⟩
    rw [hA] at ha
    cases res with
    | ok info =>
      simp only [previewLoop, hA]
      omega
    | error msg =>
      simp only [previewLoop, hA]
      split
      · simp only []
        omega
      · have hr := ih c2 (r + 1)
        simp only []
        omega

/-- Claim C9 (amended): getVideoPreview makes at most four attempts, not
three (the loop runs while retries is at most maxRetries = 3, so a fifth
attempt never happens, but a fourth does); each attempt invokes the extractor
once, or twice under the Facebook parse-failure fallback, so at most four
invocations happen for non-Facebook URLs and at most eight in total; the
backoff between attempts is linear at 1000, 2000, 3000 milliseconds; when
every attempt fails, the surfaced failure carries the last upstream message;
missing title, uploader, thumbnail and view count degrade to the sentinels
Untitled, Unknown, null and null without failing the call. -/
theorem c9_theorem (sc fb ig : Bool) (vu : String)
    (ex : ℕ → Except String Info) :
    (getVideoPreview sc fb ig vu ex).2.1 ≤ 8 ∧
    (fb = false → (getVideoPreview sc fb ig vu ex).2.1 ≤ 4) ∧
    (∀ msgs : ℕ → String,
      getVideoPreview sc false ig vu (fun n => .error (msgs n)) =
        (.error ("Failed to get video preview: " ++ msgs 3), 4,
          [1000, 2000, 3000])) ∧
    (∀ info : Info, ex 0 = .ok info →
      (getVideoPreview sc fb ig vu ex).1 = .ok (mkPreview sc fb ig vu info) ∧
      (getVideoPreview sc fb ig vu ex).2.1 = 1 ∧
      (info.title = none → (mkPreview sc fb ig vu info).title = "Untitled") ∧
      (info.uploader = none → (mkPreview sc fb ig vu info).uploader = "Unknown") ∧
      (info.thumbnail = none → (mkPreview sc fb ig vu info).thumbnail = none) ∧
      (info.view_count = none → (mkPreview sc fb ig vu info).view_count = none)) := by
  refine ⟨?_, ?_, ?_, ?_⟩
  · have := previewLoop_count_le sc fb ig vu ex 4 0 0
    simpa [getVideoPreview] using this
  · intro h
    subst h
    have := previewLoop_count_of_fb_false sc ig vu ex 4 0 0
    simpa [getVideoPreview] using this
  · intro msgs
    rfl
  · intro info h
    have hmain : getVideoPreview sc fb ig vu ex =
        (.ok (mkPreview sc fb ig vu info), 1, []) := by
      simp [getVideoPreview, previewLoop, attemptPreview, h]
    refine ⟨by rw [hmain], by rw [hmain], ?_, ?_, ?_, ?_⟩
    · intro ht
      simp [mkPreview, jsStr, ht]
    · intro hu
      simp [mkPreview, jsStr, hu]
    · intro hth
      simp [mkPreview, strTruthy, hth]
    · intro hv
      simp [mkPreview, optTruthy, hv]

/-- Claim C9 counterexample: with an extractor that always fails, the loop
performs four invocations, refuting the bound of three stated by the claim;
the surfaced error carries the last upstream message. -/
theorem c9_counterexample :
    (getVideoPreview false false false "http://u.example/"
        (fun _ => .error "boom")).2.1 = 4 ∧
    (getVideoPreview false false false "http://u.example/"
        (fun _ => .error "boom")).1 =
      .error "Failed to get video preview: boom" ∧
    ¬((4 : ℕ) ≤ 3) := by
  refine ⟨rfl, rfl, by norm_num⟩

/-- Claim C9 witness: the amended theorem evaluated at an extractor that
succeeds immediately with an empty document, and at the all-failing
extractor. -/
theorem c9_witness :
    (getVideoPreview false false false "http://u.example/"
        (fun _ => .ok c9Info)).2.1 ≤ 4 ∧
    (getVideoPreview false false false "http://u.example/"
        (fun _ => .ok c9Info)).1 =
      .ok (mkPreview false false false "http://u.example/" c9Info) ∧
    (mkPreview false false false "http://u.example/" c9Info).title =
      "Untitled" ∧
    (mkPreview false false false "http://u.example/" c9Info).uploader =
      "Unknown" ∧
    getVideoPreview false false false "http://u.example/"
        (fun _ => .error "boom") =
      (.error ("Failed to get video preview: " ++ "boom"), 4,
        [1000, 2000, 3000]) :=
  ⟨(c9_theorem false false false "http://u.example/"
      (fun _ => .ok c9Info)).2.1 rfl,
    ((c9_theorem false false false "http://u.example/"
      (fun _ => .ok c9Info)).2.2.2 c9Info rfl).1,
    ((c9_theorem false false false "http://u.example/"
      (fun _ => .ok c9Info)).2.2.2 c9Info rfl).2.2.1 rfl,
    ((c9_theorem false false false "http://u.example/"
      (fun _ => .ok c9Info)).2.2.2 c9Info rfl).2.2.2.1 rfl,
    (c9_theorem false false false "http://u.example/"
      (fun _ => .ok c9Info)).2.2.1 (fun _ => "boom")⟩

/-- Claim C7 witness: on the cyclic network above the resolver still follows
at most five hops, and the result is independent of the recursion fuel. -/
theorem c7_witness :
    (resolveRedirect c7Env "http://a.example/" 5).2 ≤ 5 ∧
    doRequest c7Env "http://a.example/" 5 2 "http://a.example/" 4 =
      doRequest c7Env "http://a.example/" 5 9 "http://a.example/" 4 :=
  ⟨(c7_theorem c7Env "http://a.example/" 5).1,
    (c7_theorem c7Env "http://a.example/" 5).2.2 2 9 "http://a.example/" 4
      (by norm_num) (by norm_num)⟩
